import Mathlib

/-!
Verification of the progressbar repository's core against its
natural-language specification.

The development shallowly embeds the Python sources:
* `progressbar/terminal/base.py`: the color model (`RGB`, `HSL`, `Color`),
  `Colors.interpolate`, `ColorGradient.get_color`, `Colors.register`, and
  the ANSI escape-sequence builders (`CSI`, `SGR`).
* `progressbar/bar.py`: the `percentage` property, the constructor's range
  check, the `__del__` cleanup path, and the iterator adapter `__next__`.

Python floats are modelled as rationals (`ℚ`), Python ints as `ℤ`, and
Python's builtin truncating `int(...)` conversion as `pyInt`.  Fallible
code returns `Except`.  Where a method body is absent from the sources
(the repository ships `update`/`start`/`finish`/`_needs_update` and the
SGR templates as stubs), the corresponding definition is modelled from
the specification and carries a doc comment saying so.
-/

namespace ProgressbarSpec

/-- Python's builtin `int(...)` applied to a rational: truncation toward
zero. -/
def pyInt (q : ℚ) : ℤ := if 0 ≤ q then ⌊q⌋ else ⌈q⌉

/-- `RGB` named tuple from `terminal/base.py`: red, green, blue channels
(Python ints). -/
structure RGB where
  red : ℤ
  green : ℤ
  blue : ℤ
deriving DecidableEq

/-- `HSL` named tuple from `terminal/base.py`: hue, saturation, lightness
(Python floats, modelled as rationals). -/
structure HSL where
  hue : ℚ
  saturation : ℚ
  lightness : ℚ
deriving DecidableEq

/-- `Color` named tuple from `terminal/base.py`: rgb, hls, name and xterm
index. -/
structure Color where
  rgb : RGB
  hls : HSL
  name : String
  xterm : ℤ
deriving DecidableEq

/-- Default color used to totalize Python list indexing (the source
asserts the color list is non-empty before indexing). -/
def colorDefault : Color := ⟨⟨0, 0, 0⟩, ⟨0, 0, 0⟩, "", 0⟩

/-- `Colors.interpolate` from `terminal/base.py`, line for line:
clamp at the ends, otherwise interpolate rgb channels with truncation to
int, interpolate hls channels exactly, and pick name/xterm from the
nearer endpoint. -/
def Colors.interpolate (color1 color2 : Color) (value : ℚ) : Color :=
  if value ≤ 0 then color1
  else if 1 ≤ value then color2
  else
    let r := pyInt ((color1.rgb.red : ℚ) +
      ((color2.rgb.red : ℚ) - (color1.rgb.red : ℚ)) * value)
    let g := pyInt ((color1.rgb.green : ℚ) +
      ((color2.rgb.green : ℚ) - (color1.rgb.green : ℚ)) * value)
    let b := pyInt ((color1.rgb.blue : ℚ) +
      ((color2.rgb.blue : ℚ) - (color1.rgb.blue : ℚ)) * value)
    let h := color1.hls.hue + (color2.hls.hue - color1.hls.hue) * value
    let s := color1.hls.saturation +
      (color2.hls.saturation - color1.hls.saturation) * value
    let l := color1.hls.lightness +
      (color2.hls.lightness - color1.hls.lightness) * value
    let nm := if value < 1/2 then color1.name else color2.name
    let xt := if value < 1/2 then color1.xterm else color2.xterm
    ⟨⟨r, g, b⟩, ⟨h, s, l⟩, nm, xt⟩

/-- `ColorGradient.get_color` from `terminal/base.py`: clamp to the first
and last stop, otherwise locate the segment (`int(value / segment_size)`
with `segment_size = 1 / (len(colors) - 1)`) and interpolate within it.
`colors[-1]` (Python) is the last element. -/
def ColorGradient.get_color (colors : List Color) (value : ℚ) : Color :=
  if value ≤ 0 then colors.getD 0 colorDefault
  else if 1 ≤ value then colors.getLastD colorDefault
  else
    let segment_size : ℚ := 1 / (((colors.length : ℤ) - 1 : ℤ) : ℚ)
    let segment : ℤ := pyInt (value / segment_size)
    let segment_value : ℚ := (value - (segment : ℚ) * segment_size) / segment_size
    Colors.interpolate (colors.getD segment.toNat colorDefault)
      (colors.getD (segment.toNat + 1) colorDefault) segment_value

/-- The class-level lookup indices of `Colors` in `terminal/base.py`:
`by_name`, `by_lowername`, `by_hex`, `by_rgb`, `by_hls` are
`defaultdict(list)` (empty list for missing keys), `by_xterm` is a plain
`dict` (modelled as an optional value per key). -/
structure ColorsState where
  by_name : String → List Color
  by_lowername : String → List Color
  by_hex : String → List Color
  by_rgb : RGB → List Color
  by_hls : HSL → List Color
  by_xterm : ℤ → Option Color

/-- `Colors.register` from `terminal/base.py`: build the `Color`,
append it to the `by_name`, `by_lowername`, `by_rgb`, `by_hls` list
indices, overwrite the `by_xterm` entry, and return the color.
`by_hex` is not touched. -/
def Colors.register (st : ColorsState) (rgb : RGB) (hls : HSL)
    (name : String) (xterm : ℤ) : ColorsState × Color :=
  let color : Color := ⟨rgb, hls, name, xterm⟩
  (⟨fun k => if k = name then st.by_name k ++ [color] else st.by_name k,
    fun k => if k = name.toLower then st.by_lowername k ++ [color]
      else st.by_lowername k,
    st.by_hex,
    fun k => if k = rgb then st.by_rgb k ++ [color] else st.by_rgb k,
    fun k => if k = hls then st.by_hls k ++ [color] else st.by_hls k,
    fun k => if k = xterm then some color else st.by_xterm k⟩,
   color)

/-! ANSI escape-sequence builders from `terminal/base.py`. -/

/-- `ESC` constant from `terminal/base.py`. -/
def ESC : String := "\x1b"

/-- `str.join` with separator `;` as used by `CSI.__call__`
(`';'.join(map(str, args))`). -/
def joinArgs : List String → String
  | [] => ""
  | [a] => a
  | a :: rest => a ++ ";" ++ joinArgs rest

/-- `CSI` from `terminal/base.py`: a final-byte code plus default
arguments. -/
structure CSI where
  code : String
  defaultArgs : List ℤ
deriving DecidableEq

/-- `CSI.__call__`: renders `ESC '[' <args> <code>` where the arguments
are the given ones, or the defaults when none are given (`args or
self._default_args`). -/
def CSI.call (c : CSI) (args : List ℤ) : String :=
  ESC ++ "[" ++
    joinArgs ((if args.isEmpty then c.defaultArgs else args).map toString) ++
    c.code

/-- `CUP = CSI('H', 1, 1)`. -/
def CUP : CSI := ⟨"H", [1, 1]⟩

/-- `UP = CSI('A', 1)`. -/
def UP : CSI := ⟨"A", [1]⟩

/-- `DOWN = CSI('B', 1)`. -/
def DOWN : CSI := ⟨"B", [1]⟩

/-- `RIGHT = CSI('C', 1)`. -/
def RIGHT : CSI := ⟨"C", [1]⟩

/-- `LEFT = CSI('D', 1)`. -/
def LEFT : CSI := ⟨"D", [1]⟩

/-- `NEXT_LINE = CSI('E', 1)`. -/
def NEXT_LINE : CSI := ⟨"E", [1]⟩

/-- `PREVIOUS_LINE = CSI('F', 1)`. -/
def PREVIOUS_LINE : CSI := ⟨"F", [1]⟩

/-- `COLUMN = CSI('G', 1)`. -/
def COLUMN : CSI := ⟨"G", [1]⟩

/-- `CLEAR_SCREEN = CSI('J', 0)`. -/
def CLEAR_SCREEN : CSI := ⟨"J", [0]⟩

/-- `CLEAR_SCREEN_TILL_END = CSINoArg('0J')`. -/
def CLEAR_SCREEN_TILL_END : CSI := ⟨"0J", []⟩

/-- `CLEAR_SCREEN_TILL_START = CSINoArg('1J')`. -/
def CLEAR_SCREEN_TILL_START : CSI := ⟨"1J", []⟩

/-- `CLEAR_SCREEN_ALL = CSINoArg('2J')`. -/
def CLEAR_SCREEN_ALL : CSI := ⟨"2J", []⟩

/-- `CLEAR_SCREEN_ALL_AND_HISTORY = CSINoArg('3J')`. -/
def CLEAR_SCREEN_ALL_AND_HISTORY : CSI := ⟨"3J", []⟩

/-- `CLEAR_LINE_ALL = CSI('K')`. -/
def CLEAR_LINE_ALL : CSI := ⟨"K", []⟩

/-- `CLEAR_LINE_RIGHT = CSINoArg('0K')`. -/
def CLEAR_LINE_RIGHT : CSI := ⟨"0K", []⟩

/-- `CLEAR_LINE_LEFT = CSINoArg('1K')`. -/
def CLEAR_LINE_LEFT : CSI := ⟨"1K", []⟩

/-- `CLEAR_LINE = CSINoArg('2K')`. -/
def CLEAR_LINE : CSI := ⟨"2K", []⟩

/-- `SCROLL_UP = CSI('S')`. -/
def SCROLL_UP : CSI := ⟨"S", []⟩

/-- `SCROLL_DOWN = CSI('T')`. -/
def SCROLL_DOWN : CSI := ⟨"T", []⟩

/-- `SAVE_CURSOR = CSINoArg('s')`. -/
def SAVE_CURSOR : CSI := ⟨"s", []⟩

/-- `RESTORE_CURSOR = CSINoArg('u')`. -/
def RESTORE_CURSOR : CSI := ⟨"u", []⟩

/-- `HIDE_CURSOR = CSINoArg('?25l')`. -/
def HIDE_CURSOR : CSI := ⟨"?25l", []⟩

/-- `SHOW_CURSOR = CSINoArg('?25h')`. -/
def SHOW_CURSOR : CSI := ⟨"?25h", []⟩

/-- `SGR` from `terminal/base.py`: a start and end style code, final byte
`m`. -/
structure SGR where
  startCode : ℤ
  endCode : ℤ
deriving DecidableEq

/-- Modelled from the spec: the `_start_template`/`_end_template`
properties of `SGR` are absent from the shipped sources (the class calls
them but never defines them); per the spec each builder is a template
`ESC '[' <args> <final-byte>`, so the start template is the CSI sequence
with code `m` at the start code and the end template the same at the end
code.  `SGR.__call__` wraps the text between the two templates. -/
def SGR.call (c : SGR) (text : String) : String :=
  CSI.call ⟨"m", []⟩ [c.startCode] ++ text ++ CSI.call ⟨"m", []⟩ [c.endCode]

/-- `bold = SGR(1, 22)`. -/
def bold : SGR := ⟨1, 22⟩

/-- `italic = SGR(3, 23)`. -/
def italic : SGR := ⟨3, 23⟩

/-- `underline = SGR(4, 24)`. -/
def underline : SGR := ⟨4, 24⟩

/-- `double_underline = SGR(21, 24)`. -/
def double_underline : SGR := ⟨21, 24⟩

/-- `strike_through = SGR(9, 29)`. -/
def strike_through : SGR := ⟨9, 29⟩

/-- `inverse = SGR(7, 27)`. -/
def inverse : SGR := ⟨7, 27⟩

/-- `faint = SGR(2, 22)`. -/
def faint : SGR := ⟨2, 22⟩

/-- `slow_blink = SGR(5, 25)`. -/
def slow_blink : SGR := ⟨5, 25⟩

/-- `fast_blink = SGR(6, 25)`. -/
def fast_blink : SGR := ⟨6, 25⟩

/-- `overline = SGR(53, 55)`. -/
def overline : SGR := ⟨53, 55⟩

/-- `framed = SGR(51, 54)`. -/
def framed : SGR := ⟨51, 54⟩

/-- `encircled = SGR(52, 54)`. -/
def encircled : SGR := ⟨52, 54⟩

/-! The update engine from `bar.py`. -/

/-- The `max_value` of a bar: either a concrete number or the
`base.UnknownLength` sentinel (the sentinel class itself is the stored
value; `base.py` is not part of the shipped sources, so the sentinel is
modelled from the spec as an opaque non-numeric marker that is falsy in
boolean context and reports a null percentage). -/
inductive MaxValueT
  | unknownLength
  | num (q : ℚ)
deriving DecidableEq

/-- `ProgressBar.percentage` from `bar.py`: `None` max or the
unknown-length sentinel give no percentage; a zero total range gives
exactly 100; otherwise `(value - min_value) / total_range * 100`. -/
def percentage (min_value : ℚ) (max_value : Option MaxValueT)
    (value : ℚ) : Option ℚ :=
  match max_value with
  | none => none
  | some MaxValueT.unknownLength => none
  | some (MaxValueT.num m) =>
    if m - min_value = 0 then some 100
    else some ((value - min_value) / (m - min_value) * 100)

/-- The range check in `ProgressBar.__init__` from `bar.py`:
`if max_value and min_value > max_value: raise ValueError(...)`.
Python truthiness: `None`, the number `0` and the `UnknownLength`
sentinel are falsy, so the comparison only runs for a concrete nonzero
`max_value`. -/
def initRangeCheck (min_value : ℚ) (max_value : Option MaxValueT) :
    Except String Unit :=
  match max_value with
  | some (MaxValueT.num m) =>
    if m ≠ 0 ∧ min_value > m then
      Except.error ("Max value needs to be bigger than the min value")
    else Except.ok ()
  | _ => Except.ok ()

/-- The errors `ProgressBar.update` can raise. -/
inductive UpdateError
  | valueExceedsMaximum
deriving DecidableEq

/-- Modelled from the spec: the body of `ProgressBar.update` is a stub
(`pass`) in the shipped sources; per the spec, when `max_error` is
enabled and the new value exceeds a concrete `max_value` the update
fails fast with `ValueExceedsMaximum`, otherwise `max_value` is silently
raised to the new value.  Returns the resulting `max_value`. -/
def checkMaxValue (max_error : Bool) (max_value : Option ℚ) (value : ℚ) :
    Except UpdateError (Option ℚ) :=
  match max_value with
  | some m =>
    if m < value then
      if max_error then Except.error UpdateError.valueExceedsMaximum
      else Except.ok (some value)
    else Except.ok (some m)
  | none => Except.ok none

/-- The throttling-relevant state of a bar: the time of the last redraw
(none before the first update) and the configured intervals.  Times are
rationals (seconds on a wall clock). -/
structure ThrottleState where
  last_update_time : Option ℚ
  poll_interval : Option ℚ
  min_poll_interval : ℚ
deriving DecidableEq

/-- Modelled from the spec: `ProgressBar._needs_update` is a stub
(`pass`) in the shipped sources; per the spec a redraw happens if
`force` is true, OR this is the very first update (no
`last_update_time` yet), OR the new value reaches `max_value`, OR the
elapsed time since `last_update_time` is at least `poll_interval` (if
configured) and at least `min_poll_interval`. -/
def needsUpdate (s : ThrottleState) (now : ℚ) (force reachesMax : Bool) :
    Bool :=
  force || reachesMax ||
    (match s.last_update_time with
     | none => true
     | some t =>
       (match s.poll_interval with
        | none => true
        | some p => decide (p ≤ now - t)) &&
         decide (s.min_poll_interval ≤ now - t))

/-- Modelled from the spec: one `update(force=False/..)` call of the
update engine at wall-clock time `now`; returns whether a redraw (a
write to the output stream) occurred, and the successor state —
`last_update_time` advances exactly when a redraw occurred. -/
def updateStep (s : ThrottleState) (now : ℚ) (force reachesMax : Bool) :
    Bool × ThrottleState :=
  let redraw := needsUpdate s now force reachesMax
  (redraw, if redraw then { s with last_update_time := some now } else s)

/-- The governing redraw threshold named by the spec: the larger of
`poll_interval` (when configured) and `min_poll_interval`. -/
def governing (poll_interval : Option ℚ) (min_poll_interval : ℚ) : ℚ :=
  match poll_interval with
  | none => min_poll_interval
  | some p => max p min_poll_interval

/-! The iterator adapter (`ProgressBar.__next__` in `bar.py`). -/

/-- The calls the iterator adapter makes on the underlying bar. -/
inductive BarEvent
  | start
  | update (value : ℚ)
  | finish (dirty : Bool)
deriving DecidableEq

/-- Outcome of `next(self._iterable)` inside `__next__`: a value, normal
exhaustion (`StopIteration`), or consumer abandonment
(`GeneratorExit`). -/
inductive IterOutcome
  | yield (x : ℤ)
  | stopIteration
  | generatorExit

/-- The direct calls one `__next__` invocation makes, from `bar.py`:
on a yielded value, `start()` if `start_time` is still unset else
`update(self.value + 1)`; on `StopIteration`, `finish()`; on
`GeneratorExit`, `finish(dirty=True)`. -/
def nextCalls (started : Bool) (value : ℚ) : IterOutcome → List BarEvent
  | IterOutcome.yield _ =>
    if started then [BarEvent.update (value + 1)] else [BarEvent.start]
  | IterOutcome.stopIteration => [BarEvent.finish false]
  | IterOutcome.generatorExit => [BarEvent.finish true]

/-- Modelled from the spec: the body of `finish` is a stub (`pass`) in
the shipped sources; per the spec, `finish` performs one final forced
redraw, which on a bar that was never started first starts it — so on
an unstarted bar the `finish()` call amounts to the invocation sequence
`start; finish`, and on a started bar to `finish` alone. -/
def finishInvocations (started : Bool) (dirty : Bool) : List BarEvent :=
  if started then [BarEvent.finish dirty]
  else [BarEvent.start, BarEvent.finish dirty]

/-- A full run of the iterator adapter over a wrapped sequence: each
element triggers the direct calls of `__next__` from `bar.py`
(`start()` on the first retrieval, `update(value + 1)` afterwards), and
exhaustion triggers `finish()`, elaborated by `finishInvocations`. -/
def runIter (value : ℚ) (started : Bool) : List ℤ → List BarEvent
  | [] => finishInvocations started false
  | _ :: rest =>
    if started then BarEvent.update (value + 1) :: runIter (value + 1) true rest
    else BarEvent.start :: runIter value true rest

/-! The `__del__` cleanup path (`ProgressBarMixinBase.__del__` in
`bar.py`). -/

/-- The exceptions relevant to the `__del__` path: Python's
`AttributeError` versus any other exception kind. -/
inductive PyError
  | attributeError
  | otherError
deriving DecidableEq

/-- `ProgressBarMixinBase.__del__` from `bar.py`: when the bar is
started and not finished, call `finish()` inside
`try: ... except AttributeError: pass`.  The behavior of the `finish`
call is abstracted as its result `finishResult`.  Returns whether
`finish` was invoked and the exception outcome of `__del__` itself. -/
def delCleanup (started finished : Bool)
    (finishResult : Except PyError Unit) : Bool × Except PyError Unit :=
  if !finished && started then
    match finishResult with
    | Except.error PyError.attributeError => (true, Except.ok ())
    | r => (true, r)
  else (false, Except.ok ())

/-! Theorems. -/

/-- C10: `Colors.register` appends the newly created color to the
`by_name`, `by_lowername`, `by_rgb` and `by_hls` list indices (so
duplicate registrations accumulate and earlier entries stay
retrievable), while `by_xterm` is a plain overwrite — after registering
two colors with the same xterm code it maps that code to the most
recently registered color only — and `by_hex` is never populated. -/
theorem register_index_behavior (st : ColorsState) (rgb1 rgb2 : RGB)
    (hls1 hls2 : HSL) (n1 n2 : String) (x : ℤ) :
    ((Colors.register st rgb1 hls1 n1 x).1).by_name n1 =
        st.by_name n1 ++ [⟨rgb1, hls1, n1, x⟩] ∧
    ((Colors.register st rgb1 hls1 n1 x).1).by_lowername n1.toLower =
        st.by_lowername n1.toLower ++ [⟨rgb1, hls1, n1, x⟩] ∧
    ((Colors.register st rgb1 hls1 n1 x).1).by_rgb rgb1 =
        st.by_rgb rgb1 ++ [⟨rgb1, hls1, n1, x⟩] ∧
    ((Colors.register st rgb1 hls1 n1 x).1).by_hls hls1 =
        st.by_hls hls1 ++ [⟨rgb1, hls1, n1, x⟩] ∧
    ((Colors.register (Colors.register st rgb1 hls1 n1 x).1
        rgb2 hls2 n2 x).1).by_xterm x = some ⟨rgb2, hls2, n2, x⟩ ∧
    (⟨rgb1, hls1, n1, x⟩ : Color) ∈
      ((Colors.register (Colors.register st rgb1 hls1 n1 x).1
        rgb2 hls2 n2 x).1).by_name n1 ∧
    ((Colors.register (Colors.register st rgb1 hls1 n1 x).1
        rgb2 hls2 n2 x).1).by_hex = st.by_hex := by
  refine ⟨by simp [Colors.register], by simp [Colors.register],
    by simp [Colors.register], by simp [Colors.register],
    by simp [Colors.register], ?_, by simp [Colors.register]⟩
  by_cases h : n1 = n2 <;> simp [Colors.register, h]

/-- C6 counterexample: a non-`AttributeError` failure raised by the
implicit `finish()` in `__del__` is not swallowed — on a started,
unfinished bar whose `finish` raises a non-attribute error, `__del__`
propagates that error, contradicting the claim that failures of any
exception kind are swallowed. -/
theorem delCleanup_other_error_propagates :
    (delCleanup true false (Except.error PyError.otherError)).2 =
      Except.error PyError.otherError := rfl

/-- C6 amended: for every started and unfinished bar, `__del__` invokes
`finish` (and does not invoke it when the bar is finished or was never
started); an `AttributeError` raised by this implicit finish is
swallowed, but any other exception kind propagates to the caller. -/
theorem delCleanup_spec (b : Bool) (r : Except PyError Unit) :
    (delCleanup true false r).1 = true ∧
    (delCleanup b true r).1 = false ∧
    (delCleanup false b r).1 = false ∧
    delCleanup true false (Except.error PyError.attributeError) =
      (true, Except.ok ()) ∧
    (delCleanup true false (Except.error PyError.otherError)).2 =
      Except.error PyError.otherError ∧
    (delCleanup true false (Except.ok ())).2 = Except.ok () := by
  refine ⟨?_, ?_, ?_, rfl, rfl, rfl⟩
  · cases r with
    | ok u => rfl
    | error e => cases e <;> rfl
  · cases b <;> rfl
  · cases b <;> rfl

/-- C8: `Colors.interpolate` returns `colorA` for `t ≤ 0` and `colorB`
for `t ≥ 1`; for `0 < t < 1` it interpolates the rgb channels (truncated
to integer) and hls channels independently and takes the name and xterm
index of `colorA` when `t < 0.5` and of `colorB` otherwise; consequently
`interpolate(A, A, t)` equals `A` for every `t` in `[0, 1]`. -/
theorem interpolate_spec (A B : Color) (t : ℚ) :
    (t ≤ 0 → Colors.interpolate A B t = A) ∧
    (1 ≤ t → Colors.interpolate A B t = B) ∧
    (0 < t → t < 1 → Colors.interpolate A B t =
      ⟨⟨pyInt ((A.rgb.red : ℚ) + ((B.rgb.red : ℚ) - (A.rgb.red : ℚ)) * t),
        pyInt ((A.rgb.green : ℚ) + ((B.rgb.green : ℚ) - (A.rgb.green : ℚ)) * t),
        pyInt ((A.rgb.blue : ℚ) + ((B.rgb.blue : ℚ) - (A.rgb.blue : ℚ)) * t)⟩,
       ⟨A.hls.hue + (B.hls.hue - A.hls.hue) * t,
        A.hls.saturation + (B.hls.saturation - A.hls.saturation) * t,
        A.hls.lightness + (B.hls.lightness - A.hls.lightness) * t⟩,
       if t < 1/2 then A.name else B.name,
       if t < 1/2 then A.xterm else B.xterm⟩) ∧
    (0 ≤ t → t ≤ 1 → Colors.interpolate A A t = A) := by
  refine ⟨fun h => by simp [Colors.interpolate, h], fun h => ?_,
    fun h1 h2 => ?_, fun _ _ => ?_⟩
  · simp [Colors.interpolate, show ¬ t ≤ 0 by linarith, h]
  · simp [Colors.interpolate, show ¬ t ≤ 0 by linarith,
      show ¬ 1 ≤ t by linarith]
  · by_cases h : t ≤ 0
    · simp [Colors.interpolate, h]
    · by_cases h' : 1 ≤ t
      · simp [Colors.interpolate, h, h']
      · simp [Colors.interpolate, pyInt, h, h']

/-- C8 witness: interpolating a concrete color with itself at `t = 1/3`
returns that color. -/
theorem interpolate_spec_witness :
    Colors.interpolate ⟨⟨10, 20, 30⟩, ⟨1, 2, 3⟩, "c", 7⟩
      ⟨⟨10, 20, 30⟩, ⟨1, 2, 3⟩, "c", 7⟩ (1/3) =
      ⟨⟨10, 20, 30⟩, ⟨1, 2, 3⟩, "c", 7⟩ :=
  (interpolate_spec ⟨⟨10, 20, 30⟩, ⟨1, 2, 3⟩, "c", 7⟩
    ⟨⟨10, 20, 30⟩, ⟨1, 2, 3⟩, "c", 7⟩ (1/3)).2.2.2
    (by norm_num) (by norm_num)

/-- C2: with concrete numeric bounds and `min_value ≤ value ≤ max_value`,
`percentage` equals `(value - min) / (max - min) * 100` when
`max > min`; it is exactly 100 when `max = min` regardless of the value;
and it is `None` when `max_value` is `None` or the unknown-length
sentinel. -/
theorem percentage_spec (mn m v w : ℚ) (h1 : mn ≤ v) (h2 : v ≤ m) :
    (mn < m → percentage mn (some (MaxValueT.num m)) v =
      some ((v - mn) / (m - mn) * 100)) ∧
    percentage mn (some (MaxValueT.num mn)) w = some 100 ∧
    percentage mn none v = none ∧
    percentage mn (some MaxValueT.unknownLength) v = none := by
  refine ⟨fun h => ?_, by simp [percentage], rfl, rfl⟩
  have hne : m - mn ≠ 0 := by
    intro hc
    rw [sub_eq_zero] at hc
    linarith
  simp [percentage, hne]

/-- C2 witness: a bar with `min = 0`, `max = 10`, `value = 5` reports
50 percent. -/
theorem percentage_spec_witness :
    percentage 0 (some (MaxValueT.num 10)) 5 = some 50 := by
  have h := (percentage_spec 0 10 5 3 (by norm_num) (by norm_num)).1
    (by norm_num)
  rw [h]
  norm_num

/-- C3: an update whose value strictly exceeds a concrete `max_value`
fails with `ValueExceedsMaximum` when `max_error` is enabled, and only
then (a value within range succeeds and keeps `max_value`); the same
out-of-range call with `max_error` disabled succeeds and silently raises
`max_value` to the new value. -/
theorem update_max_error_spec (m v w : ℚ) (h1 : m < v) (h2 : w ≤ m) :
    checkMaxValue true (some m) v =
      Except.error UpdateError.valueExceedsMaximum ∧
    checkMaxValue false (some m) v = Except.ok (some v) ∧
    checkMaxValue true (some m) w = Except.ok (some m) := by
  refine ⟨?_, ?_, ?_⟩ <;> simp [checkMaxValue, h1, not_lt.2 h2]

/-- C3 witness: with `max_value = 5`, updating to 6 raises
`ValueExceedsMaximum` under `max_error`, widens the maximum to 6
without it, and updating to 5 succeeds. -/
theorem update_max_error_spec_witness :
    checkMaxValue true (some 5) 6 =
      Except.error UpdateError.valueExceedsMaximum ∧
    checkMaxValue false (some 5) 6 = Except.ok (some 6) ∧
    checkMaxValue true (some 5) 5 = Except.ok (some 5) :=
  update_max_error_spec 5 6 5 (by norm_num) (le_refl 5)

/-- C5 counterexample: constructing a bar with `min_value = 1` and the
concrete `max_value = 0` (which is strictly less than `min_value`) does
NOT fail — the source guards the range check with Python truthiness
(`if max_value and ...`), and the number 0 is falsy, so the check is
skipped and construction succeeds. -/
theorem initRangeCheck_zero_max_no_error :
    initRangeCheck 1 (some (MaxValueT.num 0)) = Except.ok () := by
  simp [initRangeCheck]

/-- C5 amended: construction fails fast with the invalid-range error
exactly for a concrete NONZERO `max_value` strictly less than
`min_value`; when `max_value` is the number 0 (falsy in Python), `None`,
or the unknown-length sentinel, the range check is skipped and
construction succeeds. -/
theorem initRangeCheck_spec (mn m : ℚ) (h1 : m ≠ 0) (h2 : m < mn) :
    initRangeCheck mn (some (MaxValueT.num m)) =
      Except.error ("Max value needs to be bigger than the min value") ∧
    initRangeCheck mn (some (MaxValueT.num 0)) = Except.ok () ∧
    initRangeCheck mn none = Except.ok () ∧
    initRangeCheck mn (some MaxValueT.unknownLength) = Except.ok () := by
  refine ⟨?_, by simp [initRangeCheck], rfl, rfl⟩
  simp [initRangeCheck, h1, h2]

/-- C5 amended witness: `min_value = 1`, `max_value = -1` fails fast. -/
theorem initRangeCheck_spec_witness :
    initRangeCheck 1 (some (MaxValueT.num (-1))) =
      Except.error ("Max value needs to be bigger than the min value") :=
  (initRangeCheck_spec 1 (-1) (by norm_num) (by norm_num)).1

/-- C1: with `poll_interval=None` and `min_poll_interval=0.1`, two
non-forced `update` calls less than 0.1s apart produce exactly one
redraw (the first, forced by being the first update), and a third call
at least 0.1s after the first produces a second redraw; in general a
non-forced, non-first update that does not reach `max_value` redraws
iff the elapsed time since `last_update_time` is at least the governing
threshold (the larger of `poll_interval` and `min_poll_interval`). -/
theorem throttle_spec (t0 t1 t2 : ℚ) (s : ThrottleState) (now tl : ℚ)
    (h1 : t1 - t0 < 1/10) (h2 : 1/10 ≤ t2 - t0)
    (h3 : s.last_update_time = some tl) :
    (updateStep ⟨none, none, 1/10⟩ t0 false false).1 = true ∧
    (updateStep (updateStep ⟨none, none, 1/10⟩ t0 false false).2
      t1 false false).1 = false ∧
    (updateStep (updateStep (updateStep ⟨none, none, 1/10⟩ t0 false
      false).2 t1 false false).2 t2 false false).1 = true ∧
    (needsUpdate s now false false = true ↔
      governing s.poll_interval s.min_poll_interval ≤ now - tl) := by
  have h1' : ¬ ((1 : ℚ)/10 ≤ t1 - t0) := not_le.2 h1
  have hb1 : needsUpdate ⟨some t0, none, 1/10⟩ t1 false false = false :=
    decide_eq_false h1'
  have hb2 : needsUpdate ⟨some t0, none, 1/10⟩ t2 false false = true :=
    decide_eq_true h2
  have e1 : (updateStep ⟨none, none, 1/10⟩ t0 false false).2 =
      ⟨some t0, none, 1/10⟩ := rfl
  have e2 : updateStep ⟨some t0, none, 1/10⟩ t1 false false =
      (false, ⟨some t0, none, 1/10⟩) := by
    have eu : updateStep ⟨some t0, none, 1/10⟩ t1 false false =
        (needsUpdate ⟨some t0, none, 1/10⟩ t1 false false,
         if needsUpdate ⟨some t0, none, 1/10⟩ t1 false false = true
         then ⟨some t1, none, 1/10⟩ else ⟨some t0, none, 1/10⟩) := rfl
    rw [eu, hb1]
    simp
  refine ⟨rfl, ?_, ?_, ?_⟩
  · rw [e1, e2]
  · rw [e1, e2]; exact hb2
  · cases hp : s.poll_interval with
    | none => simp [needsUpdate, governing, h3, hp]
    | some p => simp [needsUpdate, governing, h3, hp, max_le_iff, and_comm]

/-- C1 witness: concrete calls at times 0, 1/20 and 1/5 seconds redraw,
skip, redraw; and with `poll_interval = 1/5`, `min_poll_interval = 1/10`
and `last_update_time = 0`, an update at time 1/4 redraws since 1/4
exceeds the governing threshold 1/5. -/
theorem throttle_spec_witness :
    (updateStep ⟨none, none, 1/10⟩ 0 false false).1 = true ∧
    (updateStep (updateStep ⟨none, none, 1/10⟩ 0 false false).2
      (1/20) false false).1 = false ∧
    (updateStep (updateStep (updateStep ⟨none, none, 1/10⟩ 0 false
      false).2 (1/20) false false).2 (1/5) false false).1 = true ∧
    (needsUpdate ⟨some 0, some (1/5), 1/10⟩ (1/4) false false = true ↔
      governing (some (1/5)) (1/10) ≤ 1/4 - 0) := by
  have h := throttle_spec 0 (1/20) (1/5) ⟨some 0, some (1/5), 1/10⟩
    (1/4) 0 (by norm_num) (by norm_num) rfl
  exact ⟨h.1, h.2.1, h.2.2.1, h.2.2.2⟩

/-- C4: the iterator adapter over a 0-length sequence invokes `start`
and `finish` exactly once with zero `update` calls in between; in
general the first retrieval triggers `start()`, each subsequent
retrieval triggers `update(value + 1)`, normal exhaustion triggers
`finish()`, and consumer abandonment triggers `finish(dirty=True)`. -/
theorem iterator_adapter_spec (v : ℚ) (st : Bool) (a : ℤ)
    (xs : List ℤ) :
    runIter v false [] = [BarEvent.start, BarEvent.finish false] ∧
    nextCalls false v (IterOutcome.yield a) = [BarEvent.start] ∧
    nextCalls true v (IterOutcome.yield a) = [BarEvent.update (v + 1)] ∧
    nextCalls st v IterOutcome.stopIteration = [BarEvent.finish false] ∧
    nextCalls st v IterOutcome.generatorExit = [BarEvent.finish true] ∧
    runIter v false (a :: xs) = BarEvent.start :: runIter v true xs ∧
    runIter v true (a :: xs) =
      BarEvent.update (v + 1) :: runIter (v + 1) true xs :=
  ⟨rfl, rfl, rfl, rfl, rfl, rfl, rfl⟩

/-- C7: `ColorGradient.get_color` clamps to the first stop for `t ≤ 0`
and the last stop for `t ≥ 1`; for `0 < t < 1` over `N ≥ 2` stops it
partitions `[0,1]` into `N - 1` equal segments, locates the segment
containing `t` (index `⌊t·(N-1)⌋`), and interpolates that segment's two
endpoint stops at `t`'s relative position within the segment. -/
theorem gradient_get_color_spec (colors : List Color) (t : ℚ)
    (hN : 2 ≤ colors.length) :
    (t ≤ 0 →
      ColorGradient.get_color colors t = colors.getD 0 colorDefault) ∧
    (1 ≤ t →
      ColorGradient.get_color colors t = colors.getLastD colorDefault) ∧
    (0 < t → t < 1 →
      ColorGradient.get_color colors t =
        Colors.interpolate
          (colors.getD (⌊t * ((colors.length : ℚ) - 1)⌋).toNat
            colorDefault)
          (colors.getD ((⌊t * ((colors.length : ℚ) - 1)⌋).toNat + 1)
            colorDefault)
          (t * ((colors.length : ℚ) - 1) -
            (⌊t * ((colors.length : ℚ) - 1)⌋ : ℚ))) := by
  refine ⟨fun h => by simp [ColorGradient.get_color, h],
    fun h => by simp [ColorGradient.get_color,
      show ¬ t ≤ 0 by linarith, h], fun ht0 ht1 => ?_⟩
  have hn2 : (2 : ℚ) ≤ (colors.length : ℚ) := by exact_mod_cast hN
  have hcast : (((colors.length : ℤ) - 1 : ℤ) : ℚ) =
      (colors.length : ℚ) - 1 := by push_cast; ring
  have hcpos : (0 : ℚ) < (colors.length : ℚ) - 1 := by linarith
  have hcne : ((colors.length : ℚ) - 1) ≠ 0 := ne_of_gt hcpos
  have hdiv : t / (1 / (((colors.length : ℤ) - 1 : ℤ) : ℚ)) =
      t * ((colors.length : ℚ) - 1) := by
    rw [hcast, one_div, div_eq_mul_inv, inv_inv]
  have hfloor : pyInt (t / (1 / (((colors.length : ℤ) - 1 : ℤ) : ℚ))) =
      ⌊t * ((colors.length : ℚ) - 1)⌋ := by
    rw [hdiv, pyInt, if_pos (le_of_lt (mul_pos ht0 hcpos))]
  have hseg : (t - (⌊t * ((colors.length : ℚ) - 1)⌋ : ℚ) *
        (1 / (((colors.length : ℤ) - 1 : ℤ) : ℚ))) /
        (1 / (((colors.length : ℤ) - 1 : ℤ) : ℚ)) =
      t * ((colors.length : ℚ) - 1) -
        (⌊t * ((colors.length : ℚ) - 1)⌋ : ℚ) := by
    rw [hcast]
    field_simp
  simp only [ColorGradient.get_color]
  rw [if_neg (by linarith), if_neg (by linarith)]
  rw [hfloor, hseg]

/-- C7 witness: a concrete two-stop gradient evaluated at `t = 1/3`
interpolates its two stops at relative position `1/3`. -/
theorem gradient_get_color_spec_witness :
    ColorGradient.get_color
      [⟨⟨0, 0, 0⟩, ⟨0, 0, 0⟩, "black", 0⟩,
       ⟨⟨255, 255, 255⟩, ⟨0, 0, 100⟩, "white", 15⟩] (1/3) =
      Colors.interpolate ⟨⟨0, 0, 0⟩, ⟨0, 0, 0⟩, "black", 0⟩
        ⟨⟨255, 255, 255⟩, ⟨0, 0, 100⟩, "white", 15⟩ (1/3) := by
  have h := (gradient_get_color_spec
    [⟨⟨0, 0, 0⟩, ⟨0, 0, 0⟩, "black", 0⟩,
     ⟨⟨255, 255, 255⟩, ⟨0, 0, 100⟩, "white", 15⟩] (1/3)
    (by norm_num)).2.2 (by norm_num) (by norm_num)
  rw [h]
  norm_num

/-- Helper: `SGR.__call__` splits into a start template, the text, and
an end template, each a CSI sequence with final byte `m`. -/
theorem sgr_call_eq (c : SGR) (s : String) :
    SGR.call c s =
      (ESC ++ "[" ++ toString c.startCode ++ "m") ++ s ++
        (ESC ++ "[" ++ toString c.endCode ++ "m") := by
  simp [SGR.call, CSI.call, joinArgs]

/-- Helper: an `SGR` builder applied to a text yields the start
template, the text, and the end template, given evaluations of the two
templates. -/
theorem sgr_call_parts (c : SGR) (s p q : String)
    (hp : ESC ++ "[" ++ toString c.startCode ++ "m" = p)
    (hq : ESC ++ "[" ++ toString c.endCode ++ "m" = q) :
    SGR.call c s = p ++ s ++ q := by
  rw [← hp, ← hq]
  exact sgr_call_eq c s

/-- C9: every ANSI sequence builder is a pure, total string producer:
each cursor/clear builder called with no arguments produces its escape
sequence with the documented defaults (cursor-up yields `ESC [ 1 A`),
and each SGR-family builder applied to any text returns the text styled
between its start and end sequences without failing. -/
theorem ansi_builders_spec (s : String) :
    CSI.call CUP [] = "\x1b[1;1H" ∧
    CSI.call UP [] = "\x1b[1A" ∧
    CSI.call DOWN [] = "\x1b[1B" ∧
    CSI.call RIGHT [] = "\x1b[1C" ∧
    CSI.call LEFT [] = "\x1b[1D" ∧
    CSI.call NEXT_LINE [] = "\x1b[1E" ∧
    CSI.call PREVIOUS_LINE [] = "\x1b[1F" ∧
    CSI.call COLUMN [] = "\x1b[1G" ∧
    CSI.call CLEAR_SCREEN [] = "\x1b[0J" ∧
    CSI.call CLEAR_SCREEN_TILL_END [] = "\x1b[0J" ∧
    CSI.call CLEAR_SCREEN_TILL_START [] = "\x1b[1J" ∧
    CSI.call CLEAR_SCREEN_ALL [] = "\x1b[2J" ∧
    CSI.call CLEAR_SCREEN_ALL_AND_HISTORY [] = "\x1b[3J" ∧
    CSI.call CLEAR_LINE_ALL [] = "\x1b[K" ∧
    CSI.call CLEAR_LINE_RIGHT [] = "\x1b[0K" ∧
    CSI.call CLEAR_LINE_LEFT [] = "\x1b[1K" ∧
    CSI.call CLEAR_LINE [] = "\x1b[2K" ∧
    CSI.call SCROLL_UP [] = "\x1b[S" ∧
    CSI.call SCROLL_DOWN [] = "\x1b[T" ∧
    CSI.call SAVE_CURSOR [] = "\x1b[s" ∧
    CSI.call RESTORE_CURSOR [] = "\x1b[u" ∧
    CSI.call HIDE_CURSOR [] = "\x1b[?25l" ∧
    CSI.call SHOW_CURSOR [] = "\x1b[?25h" ∧
    SGR.call bold s = "\x1b[1m" ++ s ++ "\x1b[22m" ∧
    SGR.call italic s = "\x1b[3m" ++ s ++ "\x1b[23m" ∧
    SGR.call underline s = "\x1b[4m" ++ s ++ "\x1b[24m" ∧
    SGR.call double_underline s = "\x1b[21m" ++ s ++ "\x1b[24m" ∧
    SGR.call strike_through s = "\x1b[9m" ++ s ++ "\x1b[29m" ∧
    SGR.call inverse s = "\x1b[7m" ++ s ++ "\x1b[27m" ∧
    SGR.call faint s = "\x1b[2m" ++ s ++ "\x1b[22m" ∧
    SGR.call slow_blink s = "\x1b[5m" ++ s ++ "\x1b[25m" ∧
    SGR.call fast_blink s = "\x1b[6m" ++ s ++ "\x1b[25m" ∧
    SGR.call overline s = "\x1b[53m" ++ s ++ "\x1b[55m" ∧
    SGR.call framed s = "\x1b[51m" ++ s ++ "\x1b[54m" ∧
    SGR.call encircled s = "\x1b[52m" ++ s ++ "\x1b[54m" := by
  and_intros <;> first
    | decide
    | exact sgr_call_parts _ s _ _ (by decide) (by decide)

end ProgressbarSpec
